import Mathlib

/-
Verification development for the autominion CLI.
Shallow embedding of the parts of the program the claims are about:
the outcome channel of the task endpoints (src/api/agent.rs),
the run coordinator tail (src/cli/run.rs lines 79-102),
the LLM routing table (src/config.rs) and the proxy configuration
(src/api/chat.rs), the squash-merge git operation (src/cli/run.rs),
and the inquiry relay state (src/api/agent.rs).
-/

/-- Modelled from the spec: crate::api::TaskOutcome (src/api/mod.rs is absent
from the sources). A two-variant outcome, with the variant names exactly as
used in src/api/agent.rs and src/cli/run.rs. -/
inductive TaskOutcome
  | Completed
  | Failure
deriving DecidableEq

/-- State of the one-shot shutdown channel threaded through the server,
from src/api/agent.rs: the slot `Mutex<Option<oneshot::Sender<TaskOutcome>>>`,
whether the receiving end is still alive, and the list of outcomes actually
delivered into the channel. -/
structure OutcomeChannel where
  sender : Option Unit
  receiverAlive : Bool
  sent : List TaskOutcome
deriving DecidableEq

/-- Result of one handler invocation: normal HTTP OK, or a panic
(the code reaches a panic through `.expect` on a consumed sender or a
failed send). -/
inductive HandlerResult
  | ok
  | panicked
deriving DecidableEq

/-- Embedding of `task_complete` (src/api/agent.rs lines 48-66): lock the
slot, `take()` the sender and `.expect` it (panic when already consumed),
then `send(TaskOutcome::Completed).expect` (panic when the receiver is gone,
with the sender consumed either way). -/
def task_complete (ch : OutcomeChannel) : HandlerResult × OutcomeChannel :=
  match ch.sender with
  | none => (HandlerResult.panicked, ch)
  | some _ =>
    if ch.receiverAlive then
      (HandlerResult.ok,
        { ch with sender := none, sent := ch.sent ++ [TaskOutcome.Completed] })
    else
      (HandlerResult.panicked, { ch with sender := none })

/-- Embedding of `task_fail` (src/api/agent.rs lines 68-85), identical to
`task_complete` except that it sends `TaskOutcome::Failure`. -/
def task_fail (ch : OutcomeChannel) : HandlerResult × OutcomeChannel :=
  match ch.sender with
  | none => (HandlerResult.panicked, ch)
  | some _ =>
    if ch.receiverAlive then
      (HandlerResult.ok,
        { ch with sender := none, sent := ch.sent ++ [TaskOutcome.Failure] })
    else
      (HandlerResult.panicked, { ch with sender := none })

/-- A call arriving at one of the two outcome-producing endpoints. -/
inductive AgentCall
  | complete
  | fail
deriving DecidableEq

/-- Dispatch one call to its handler. -/
def agentStep (c : AgentCall) (ch : OutcomeChannel) : HandlerResult × OutcomeChannel :=
  match c with
  | AgentCall.complete => task_complete ch
  | AgentCall.fail => task_fail ch

/-- Run a sequence of calls against the channel, collecting the handler
results. -/
def runAgentCalls : List AgentCall → OutcomeChannel → List HandlerResult × OutcomeChannel
  | [], ch => ([], ch)
  | c :: cs, ch =>
    let rc := agentStep c ch
    let rest := runAgentCalls cs rc.2
    (rc.1 :: rest.1, rest.2)

/-- Number of successful (HTTP OK) handler results. -/
def countOk : List HandlerResult → Nat
  | [] => 0
  | HandlerResult.ok :: rs => countOk rs + 1
  | HandlerResult.panicked :: rs => countOk rs

/-- The channel as it exists at the start of a run: sender present, nothing
sent yet. -/
def initChannel (alive : Bool) : OutcomeChannel :=
  { sender := some (), receiverAlive := alive, sent := [] }

/-- One count for a present sender, zero for a consumed one. -/
def senderCount (ch : OutcomeChannel) : Nat :=
  match ch.sender with
  | some _ => 1
  | none => 0

/-- Errors of the git branch manager (src/cli/run.rs squash_merge_branch and
friends, surfaced there as anyhow errors with fixed messages). -/
inductive GitError
  | dirtyWorkingTree
  | branchNotFound
  | commitNotFound
  | noMergeBase
  | mergeConflict
deriving DecidableEq

/-- Result of the `tokio::try_join!` over the server task and the container
run in src/cli/run.rs lines 79-92: an outcome when both branches resolved Ok,
an error as soon as either branch resolves Err, and pending while no branch
has errored and at least one is unresolved. -/
inductive JoinRes
  | ok (o : TaskOutcome)
  | err
  | pending
deriving DecidableEq

/-- Semantics of `tokio::try_join!(server, container)`: `none` stands for a
future that never resolves; the join errors on the first Err, yields the pair
only once both are Ok, and otherwise stays pending. -/
def tryJoinOutcome :
    Option (Except Unit TaskOutcome) → Option (Except Unit Unit) → JoinRes
  | some (Except.error _), _ => JoinRes.err
  | _, some (Except.error _) => JoinRes.err
  | some (Except.ok o), some (Except.ok _) => JoinRes.ok o
  | _, _ => JoinRes.pending

/-- Modelled from the spec: crate::api::run_server (src/api/mod.rs is absent
from the sources). The server future resolves with the TaskOutcome exactly
when one of the outcome endpoints has produced one; with no outcome posted it
never resolves. -/
def serverEventualResult (posted : Option TaskOutcome) :
    Option (Except Unit TaskOutcome) :=
  posted.map Except.ok

/-- Observable effects of the tail of `run` (src/cli/run.rs lines 93-102):
whether squash_merge_branch was invoked, whether stop_notify.notify_one ran,
and whether inquiry_handle was awaited. -/
structure RunEffects where
  mergeInvoked : Bool
  stopNotified : Bool
  inquiryJoined : Bool
deriving DecidableEq

/-- How the `run` function ends: it never returns (the awaited join is still
pending), it returns Err, or it returns Ok. -/
inductive RunStepResult
  | pending
  | errored
  | success
deriving DecidableEq

/-- Embedding of src/cli/run.rs lines 79-102 after the services start: the
try_join result is inspected; a Failure outcome notifies the relay and
returns Ok without merging; a Completed outcome runs squash_merge_branch
whose error propagates through `?` (skipping the notify and the join of the
inquiry handle); on merge success the relay is notified and awaited. -/
def runTail (j : JoinRes) (mergeResult : Except GitError Unit) :
    RunStepResult × RunEffects :=
  match j with
  | JoinRes.pending => (RunStepResult.pending, ⟨false, false, false⟩)
  | JoinRes.err => (RunStepResult.errored, ⟨false, false, false⟩)
  | JoinRes.ok TaskOutcome.Failure => (RunStepResult.success, ⟨false, true, true⟩)
  | JoinRes.ok TaskOutcome.Completed =>
    match mergeResult with
    | Except.error _ => (RunStepResult.errored, ⟨true, false, false⟩)
    | Except.ok _ => (RunStepResult.success, ⟨true, true, true⟩)

/-- Association-list lookup, standing in for HashMap lookup and for the
reference stores of the git model. -/
def alookup {α β : Type} [DecidableEq α] (k : α) : List (α × β) → Option β
  | [] => none
  | kv :: rest => if k = kv.1 then some kv.2 else alookup k rest

/-- Chat completions URL of OpenRouter, from src/config.rs and
src/api/chat.rs. -/
def OPENROUTER_CHAT_COMPLETIONS_URL : String :=
  "https://openrouter.ai/api/v1/chat/completions"

/-- Chat completions URL of Groq, from src/config.rs. -/
def GROQ_CHAT_COMPLETIONS_URL : String :=
  "https://api.groq.com/openai/v1/chat/completions"

/-- Chat completions URL of Google Gemini, from src/config.rs. -/
def GEMINI_CHAT_COMPLETIONS_URL : String :=
  "https://generativelanguage.googleapis.com/v1beta/openai/chat/completions"

/-- Chat completions URL of Cohere, from src/config.rs. -/
def COHERE_CHAT_COMPLETIONS_URL : String :=
  "https://api.cohere.ai/compatibility/v1/chat/completions"

/-- Endpoint and credential of one provider, from src/config.rs. -/
structure LLMProviderDetails where
  api_chat_completions_endpoint : String
  api_key : String
deriving DecidableEq

/-- The routing table, from src/config.rs: a default provider tag plus a
map (modelled as an association list with distinct keys) from provider tag
to details. -/
structure LLMRouterTable where
  default_provider : String
  providers : List (String × LLMProviderDetails)
deriving DecidableEq

/-- Split a character list at the first slash, mirroring Rust
`str::split_once` specialised to the separator used in the code. -/
def splitOnceAux : List Char → Option (List Char × List Char)
  | [] => none
  | c :: rest =>
    if c = '/' then some ([], rest)
    else
      match splitOnceAux rest with
      | some lr => some (c :: lr.1, lr.2)
      | none => none

/-- Rust `provider_and_model.split_once('/')`. -/
def split_once (s : String) : Option (String × String) :=
  match splitOnceAux s.data with
  | some lr => some (String.mk lr.1, String.mk lr.2)
  | none => none

/-- Embedding of `LLMRouterTable::details_for_model` (src/config.rs lines
80-97). The `.expect("Default provider not found")` panic is modelled by
returning `none`. -/
def LLMRouterTable.details_for_model (t : LLMRouterTable)
    (provider_and_model : String) : Option (String × LLMProviderDetails) :=
  match split_once provider_and_model with
  | some pm =>
    match alookup pm.1 t.providers with
    | some d => some (pm.2, d)
    | none =>
      (alookup t.default_provider t.providers).map
        (fun d => (provider_and_model, d))
  | none =>
    (alookup t.default_provider t.providers).map
      (fun d => (provider_and_model, d))

/-- The provider enum of src/config.rs. -/
inductive LLMProvider
  | OpenRouter
  | Groq
  | GoogleGemini
  | Cohere
deriving DecidableEq

/-- Embedding of `LLMProvider::tag` (src/config.rs). -/
def LLMProvider.tag : LLMProvider → String
  | LLMProvider.OpenRouter => "openrouter"
  | LLMProvider.Groq => "groq"
  | LLMProvider.GoogleGemini => "google-gemini"
  | LLMProvider.Cohere => "cohere"

/-- The persisted configuration of src/config.rs. -/
structure Config where
  llm_provider : Option LLMProvider
  openrouter_key : Option String
  groq_key : Option String
  google_gemini_key : Option String
  cohere_key : Option String
deriving DecidableEq

/-- Embedding of `Config::llm_router_table` (src/config.rs lines 136-184):
one providers entry per present key, and the default provider tag taken from
`llm_provider` whether or not a matching key (and hence a matching providers
entry) exists. -/
def Config.llm_router_table (c : Config) : Option LLMRouterTable :=
  let providers : List (String × LLMProviderDetails) :=
    (match c.openrouter_key with
     | some key => [("openrouter", ⟨OPENROUTER_CHAT_COMPLETIONS_URL, key⟩)]
     | none => []) ++
    (match c.groq_key with
     | some key => [("groq", ⟨GROQ_CHAT_COMPLETIONS_URL, key⟩)]
     | none => []) ++
    (match c.google_gemini_key with
     | some key => [("google-gemini", ⟨GEMINI_CHAT_COMPLETIONS_URL, key⟩)]
     | none => []) ++
    (match c.cohere_key with
     | some key => [("cohere", ⟨COHERE_CHAT_COMPLETIONS_URL, key⟩)]
     | none => [])
  match c.llm_provider with
  | none => none
  | some p => some ⟨p.tag, providers⟩

/-- A chat completion request as seen by the proxy configuration; only the
model identifier is relevant here. -/
structure CompletionRequest where
  model : String
deriving DecidableEq

/-- The Context as built in src/main.rs and read by src/api/chat.rs
(src/context.rs is absent from the sources; this is the shape chat.rs
accesses). -/
structure MainContext where
  openrouter_key : String
deriving DecidableEq

/-- Embedding of `TheProxyConfig::forward_to_url` (src/api/chat.rs lines
44-50): the forwarding URL is the OpenRouter endpoint for every request,
independent of the request and of any routing table. -/
def forward_to_url (_ctx : MainContext) (_req : CompletionRequest) : String :=
  OPENROUTER_CHAT_COMPLETIONS_URL

/-- Embedding of `TheProxyConfig::api_key` (src/api/chat.rs lines 36-42):
always the OpenRouter key of the context. -/
def api_key (ctx : MainContext) (_req : CompletionRequest) : String :=
  ctx.openrouter_key

/-- Whether the part of `s` before the first slash fails to name a provider
of `t` (true in particular when `s` has no slash). -/
def noProviderMatch (t : LLMRouterTable) (s : String) : Bool :=
  match split_once s with
  | some pm => (alookup pm.1 t.providers).isNone
  | none => true

/-- A tree (or the working directory, or the index) as a finite map from
path to blob content, represented as an association list. -/
abbrev FileTree := List (String × String)

/-- One change of a diff: path, old content (none when the file is added)
and new content (none when the file is deleted). -/
structure Change where
  path : String
  oldContent : Option String
  newContent : Option String
deriving DecidableEq

/-- Diff of two trees (repo.diff_tree_to_tree): entries of the old tree that
changed or disappeared, followed by entries new in the new tree. -/
def diffTrees (old new : FileTree) : List Change :=
  old.filterMap (fun pv =>
    match alookup pv.1 new with
    | some v2 => if v2 = pv.2 then none else some ⟨pv.1, some pv.2, some v2⟩
    | none => some ⟨pv.1, some pv.2, none⟩) ++
  new.filterMap (fun pv =>
    match alookup pv.1 old with
    | some _ => none
    | none => some ⟨pv.1, none, some pv.2⟩)

/-- Insert or replace a path in a tree. -/
def setPath (wd : FileTree) (p v : String) : FileTree :=
  match wd with
  | [] => [(p, v)]
  | kv :: rest => if kv.1 = p then (p, v) :: rest else kv :: setPath rest p v

/-- Remove a path from a tree. -/
def removePath (wd : FileTree) (p : String) : FileTree :=
  match wd with
  | [] => []
  | kv :: rest => if kv.1 = p then removePath rest p else kv :: removePath rest p

/-- Apply one change to the working directory: it applies only when the
current content at the path matches the recorded old content. -/
def applyChange (wd : FileTree) (ch : Change) : Option FileTree :=
  if alookup ch.path wd = ch.oldContent then
    some (match ch.newContent with
          | some v => setPath wd ch.path v
          | none => removePath wd ch.path)
  else
    none

/-- Apply a list of changes in order, stopping at the first conflicting one
(repo.apply to the working directory: no rollback of what was already
applied). Returns the resulting tree and whether every change applied. -/
def applySeq : List Change → FileTree → FileTree × Bool
  | [], wd => (wd, true)
  | ch :: rest, wd =>
    match applyChange wd ch with
    | some wd2 => applySeq rest wd2
    | none => (wd, false)

/-- Worktree status flags of one tracked file, the five flags the dirty
check of squash_merge_branch queries. -/
structure GitStatus where
  wt_new : Bool
  wt_modified : Bool
  wt_deleted : Bool
  wt_renamed : Bool
  wt_typechange : Bool
deriving DecidableEq

/-- The status entry reported for an untracked file. -/
def untrackedStatus : GitStatus := ⟨true, false, false, false, false⟩

/-- A status entry is dirty when any of the five queried flags is set,
as in the closure inside squash_merge_branch. -/
def statusDirty (s : GitStatus) : Bool :=
  s.wt_new || s.wt_modified || s.wt_deleted || s.wt_renamed || s.wt_typechange

/-- State of the repository as the git branch manager sees it. HEAD is
modelled as always naming a branch (run.rs establishes this through
current_branch_name before squash_merge_branch can run). The merge-base
relation and the commit-to-tree map are part of the state, as the oracle the
libgit2 calls consult. -/
structure RepoState where
  headBranch : String
  branches : List (String × Nat)
  trees : List (Nat × FileTree)
  mergeBases : List ((Nat × Nat) × Nat)
  workdir : FileTree
  index : FileTree
  trackedStatuses : List GitStatus
  untracked : List String
deriving DecidableEq

/-- Embedding of `repo.statuses` with the include_untracked option: with it
set, untracked files contribute WT_NEW entries; without it, only tracked
files report. squash_merge_branch calls this with the option off. -/
def statusEntries (st : RepoState) (includeUntracked : Bool) : List GitStatus :=
  if includeUntracked then
    st.trackedStatuses ++ st.untracked.map (fun _ => untrackedStatus)
  else
    st.trackedStatuses

/-- The git operations squash_merge_branch can perform after opening the
repository, recorded as a trace to witness their order. -/
inductive GitOp
  | statusCheck
  | setHeadAndCheckout (branch : String)
  | computeMergeBase (a b : Nat)
  | computeDiff
  | applyWorkDir
deriving DecidableEq

/-- The branch-switch step of squash_merge_branch (repo.set_head followed by
repo.checkout_head) performed only when the checked-out branch is not the
base; a checkout moves the working directory and the index to the tree of
the base branch head. -/
def switchIfNeeded (st : RepoState) (base : String) :
    Except GitError (RepoState × List GitOp) :=
  if st.headBranch = base then
    Except.ok (st, [])
  else
    match alookup base st.branches with
    | none => Except.error GitError.branchNotFound
    | some bc =>
      match alookup bc st.trees with
      | none => Except.error GitError.commitNotFound
      | some bt =>
        Except.ok
          ({ st with headBranch := base, workdir := bt, index := bt },
           [GitOp.setHeadAndCheckout base])

/-- Embedding of `squash_merge_branch` (src/cli/run.rs lines 204-257):
dirty check first (statuses with include_untracked off, failing on any of
the five worktree flags), then the branch switch when needed, resolution of
the base and fork commits, the merge base, the two trees, the tree-to-tree
diff, and its unstaged application to the working directory, where a
conflict is reported as a merge-conflict error with whatever prefix of the
changes already applied left in place. -/
def squash_merge_branch (st : RepoState) (base fork : String) :
    Except GitError Unit × RepoState × List GitOp :=
  if (statusEntries st false).any statusDirty then
    (Except.error GitError.dirtyWorkingTree, st, [GitOp.statusCheck])
  else
    match switchIfNeeded st base with
    | Except.error e => (Except.error e, st, [GitOp.statusCheck])
    | Except.ok s1 =>
      let st1 := s1.1
      let ops1 := s1.2
      match alookup base st1.branches, alookup fork st1.branches with
      | some bc, some fc =>
        (match alookup (bc, fc) st1.mergeBases with
         | none =>
           (Except.error GitError.noMergeBase, st1, GitOp.statusCheck :: ops1)
         | some mb =>
           match alookup mb st1.trees, alookup fc st1.trees with
           | some mbTree, some forkTree =>
             let ap := applySeq (diffTrees mbTree forkTree) st1.workdir
             ((if ap.2 then Except.ok () else Except.error GitError.mergeConflict),
              { st1 with workdir := ap.1 },
              (GitOp.statusCheck :: ops1) ++
                [GitOp.computeMergeBase bc fc, GitOp.computeDiff, GitOp.applyWorkDir])
           | _, _ =>
             (Except.error GitError.commitNotFound, st1,
              (GitOp.statusCheck :: ops1) ++ [GitOp.computeMergeBase bc fc]))
      | _, _ =>
        (Except.error GitError.branchNotFound, st1, GitOp.statusCheck :: ops1)

/-- A pending inquiry, from src/api/agent.rs: the question and the sending
half of the one-shot answer channel, identified here by a numeric channel
id. -/
structure Inquiry where
  sender : Nat
  question : String
deriving DecidableEq

/-- State of the inquiry relay: the pending slot of InquiryState, a fresh-id
counter for one-shot channels, the answers delivered into channels, and the
channels whose sender was dropped without an answer (their receiver resolves
with an error). -/
structure RelayState where
  pending : Option Inquiry
  nextId : Nat
  delivered : List (Nat × String)
  closed : List Nat
deriving DecidableEq

/-- Embedding of the `inquiry` handler (src/api/agent.rs lines 88-105): a
fresh one-shot channel is created, and the pending slot is overwritten with
the new inquiry; an inquiry previously in the slot is dropped, which closes
its sender. Returns the channel id the suspended handler awaits. -/
def inquiry (question : String) (st : RelayState) : Nat × RelayState :=
  let c := st.nextId
  (c,
    { pending := some ⟨c, question⟩,
      nextId := c + 1,
      delivered := st.delivered,
      closed :=
        match st.pending with
        | some old => old.sender :: st.closed
        | none => st.closed })

/-- Embedding of `get_inquiry` (src/api/agent.rs lines 111-119): the pending
question, or the empty string when none is pending; the state is unchanged. -/
def get_inquiry (st : RelayState) : String :=
  match st.pending with
  | some i => i.question
  | none => ""

/-- Response of the inquiry_response handler: the OK acknowledgement or the
BadRequest client error. -/
inductive RespResult
  | okAck
  | badRequest
deriving DecidableEq

/-- Embedding of `inquiry_response` (src/api/agent.rs lines 125-140): take
the pending inquiry out of the slot; when one was there, send the answer
into its channel and acknowledge; otherwise answer BadRequest. -/
def inquiry_response (answer : String) (st : RelayState) :
    RespResult × RelayState :=
  match st.pending with
  | some i =>
    (RespResult.okAck,
      { st with pending := none, delivered := (i.sender, answer) :: st.delivered })
  | none => (RespResult.badRequest, st)

/-- An operation arriving at the relay endpoints. -/
inductive RelayOp
  | post (q : String)
  | getReq
  | respond (a : String)

/-- Apply one relay operation to the state. -/
def relayStep : RelayOp → RelayState → RelayState
  | RelayOp.post q, st => (inquiry q st).2
  | RelayOp.getReq, st => st
  | RelayOp.respond a, st => (inquiry_response a st).2

/-- Run a sequence of relay operations. -/
def runRelay : List RelayOp → RelayState → RelayState
  | [], st => st
  | op :: rest, st => runRelay rest (relayStep op st)

/-- Channel `c` has received nothing, is not the pending sender, and is
strictly below the fresh-id counter; this is preserved by every relay
operation, so `c` can never be delivered an answer. -/
def Orphaned (c : Nat) (st : RelayState) : Prop :=
  (∀ x, (c, x) ∉ st.delivered) ∧
  (∀ i, st.pending = some i → i.sender ≠ c) ∧
  c < st.nextId

/-- Provider details of Groq as built from the concrete configuration
below. -/
def groqDetails : LLMProviderDetails :=
  ⟨GROQ_CHAT_COMPLETIONS_URL, "groq-key"⟩

/-- Provider details of OpenRouter as built from the concrete configuration
below. -/
def orDetails : LLMProviderDetails :=
  ⟨OPENROUTER_CHAT_COMPLETIONS_URL, "or-key"⟩

/-- A configuration with both an OpenRouter and a Groq key, defaulting to
OpenRouter. -/
def cfgBoth : Config :=
  { llm_provider := some LLMProvider.OpenRouter,
    openrouter_key := some "or-key",
    groq_key := some "groq-key",
    google_gemini_key := none,
    cohere_key := none }

/-- The routing table produced from cfgBoth. -/
def tableBoth : LLMRouterTable :=
  ⟨"openrouter", [("openrouter", orDetails), ("groq", groqDetails)]⟩

/-- A configuration whose chosen default provider is Groq although no Groq
key is stored. -/
def cfgGroqDefaultNoKey : Config :=
  { llm_provider := some LLMProvider.Groq,
    openrouter_key := some "or-key",
    groq_key := none,
    google_gemini_key := none,
    cohere_key := none }

/-- The routing table produced from cfgGroqDefaultNoKey: the default tag
names a provider absent from the providers map. -/
def tableGroqDefault : LLMRouterTable :=
  ⟨"groq", [("openrouter", orDetails)]⟩

/-- A repository with one tracked file modified in the working tree. -/
def dirtyRepo : RepoState :=
  { headBranch := "main",
    branches := [("main", 1), ("fork1", 2)],
    trees := [(0, [("a.txt", "old")]), (1, [("a.txt", "old")]),
              (2, [("a.txt", "new"), ("b.txt", "add")])],
    mergeBases := [((1, 2), 0)],
    workdir := [("a.txt", "edited")],
    index := [("a.txt", "old")],
    trackedStatuses := [⟨false, true, false, false, false⟩],
    untracked := [] }

/-- A clean repository with a fork branch whose aggregate diff against the
merge base edits one file and adds another; an untracked scratch file is
present and ignored. -/
def cleanRepo : RepoState :=
  { headBranch := "main",
    branches := [("main", 1), ("fork1", 2)],
    trees := [(0, [("a.txt", "old")]), (1, [("a.txt", "old")]),
              (2, [("a.txt", "new"), ("b.txt", "add")])],
    mergeBases := [((1, 2), 0)],
    workdir := [("a.txt", "old")],
    index := [("a.txt", "old")],
    trackedStatuses := [⟨false, false, false, false, false⟩],
    untracked := ["scratch.txt"] }


theorem agentStep_consumed (c : AgentCall) (ch : OutcomeChannel)
    (h : ch.sender = none) : agentStep c ch = (HandlerResult.panicked, ch) := by
  cases c <;> simp [agentStep, task_complete, task_fail, h]

theorem runAgentCalls_bound (cs : List AgentCall) (ch : OutcomeChannel) :
    countOk (runAgentCalls cs ch).1 ≤ senderCount ch ∧
    (runAgentCalls cs ch).2.sent.length ≤ ch.sent.length + senderCount ch := by
  induction cs generalizing ch with
  | nil => simp [runAgentCalls, countOk]
  | cons c cs ih =>
    cases hs : ch.sender with
    | none =>
      have hstep := agentStep_consumed c ch hs
      simp only [runAgentCalls, hstep]
      exact ⟨by simpa [countOk] using (ih ch).1, (ih ch).2⟩
    | some u =>
      have hsc : senderCount ch = 1 := by simp [senderCount, hs]
      cases ha : ch.receiverAlive with
      | true =>
        have hstep : ∃ o, agentStep c ch =
            (HandlerResult.ok, { ch with sender := none, sent := ch.sent ++ [o] }) := by
          cases c
          · exact ⟨TaskOutcome.Completed, by simp [agentStep, task_complete, hs, ha]⟩
          · exact ⟨TaskOutcome.Failure, by simp [agentStep, task_fail, hs, ha]⟩
        obtain ⟨o, hstep⟩ := hstep
        have ihch := ih { ch with sender := none, sent := ch.sent ++ [o] }
        simp only [runAgentCalls, hstep]
        constructor
        · have h1 := ihch.1
          simp only [senderCount] at h1
          simp only [countOk, hsc]
          omega
        · have h2 := ihch.2
          simp only [senderCount, List.length_append, List.length_cons,
            List.length_nil] at h2
          simp only [hsc]
          omega
      | false =>
        have hstep : agentStep c ch = (HandlerResult.panicked, { ch with sender := none }) := by
          cases c <;> simp [agentStep, task_complete, task_fail, hs, ha]
        have ihch := ih { ch with sender := none }
        simp only [runAgentCalls, hstep]
        constructor
        · have h1 := ihch.1
          simp only [senderCount] at h1
          simp only [countOk, hsc]
          omega
        · have h2 := ihch.2
          simp only [senderCount] at h2
          simp only [hsc]
          omega

/-- C1: per run, at most one of the task_complete and task_fail handlers can
succeed and at most one TaskOutcome is ever delivered into the one-shot
channel; any call made once the sender has been consumed observes the
consumed sender, panics (an error, not a silent success) and delivers
nothing. -/
theorem task_outcome_at_most_once (cs : List AgentCall) (alive : Bool)
    (c : AgentCall) (ch : OutcomeChannel) (h : ch.sender = none) :
    countOk (runAgentCalls cs (initChannel alive)).1 ≤ 1 ∧
    (runAgentCalls cs (initChannel alive)).2.sent.length ≤ 1 ∧
    agentStep c ch = (HandlerResult.panicked, ch) := by
  have hb := runAgentCalls_bound cs (initChannel alive)
  have hsc : senderCount (initChannel alive) = 1 := by
    simp [senderCount, initChannel]
  refine ⟨?_, ?_, agentStep_consumed c ch h⟩
  · exact hsc ▸ hb.1
  · have h2 := hb.2
    simp [initChannel, hsc] at h2
    simpa using h2

theorem task_outcome_at_most_once_witness :
    countOk (runAgentCalls [AgentCall.complete, AgentCall.fail] (initChannel true)).1 ≤ 1 ∧
    (runAgentCalls [AgentCall.complete, AgentCall.fail] (initChannel true)).2.sent.length ≤ 1 ∧
    agentStep AgentCall.fail (runAgentCalls [AgentCall.complete] (initChannel true)).2 =
      (HandlerResult.panicked, (runAgentCalls [AgentCall.complete] (initChannel true)).2) :=
  task_outcome_at_most_once [AgentCall.complete, AgentCall.fail] true AgentCall.fail
    (runAgentCalls [AgentCall.complete] (initChannel true)).2 (by decide)

/-- C2 counterexample: with the container exiting with code 0 and no outcome
posted, the run does not abort: the try_join stays pending (the server
future never resolves), so run never returns at all - neither success nor
error - and squash_merge_branch is never invoked. -/
theorem run_counterexample_silent_exit :
    runTail (tryJoinOutcome (serverEventualResult none) (some (Except.ok ())))
        (Except.ok ()) =
      (RunStepResult.pending, ⟨false, false, false⟩) ∧
    RunStepResult.pending ≠ RunStepResult.success ∧
    RunStepResult.pending ≠ RunStepResult.errored := by
  decide

/-- C2 (amended): if the container exits with code 0 before any TaskOutcome
is posted, the run is never treated as success and squash_merge_branch is
never invoked, but the run does not abort either: the join remains pending.
Conversely, once an outcome is recorded the container is still awaited, not
cancelled: the join stays pending while the container runs, and yields the
outcome exactly once the container has also completed successfully. -/
theorem run_silent_exit_and_container_awaited :
    ∀ (m : Except GitError Unit) (o : TaskOutcome) (c : Option (Except Unit Unit)),
      runTail (tryJoinOutcome (serverEventualResult none) (some (Except.ok ()))) m =
        (RunStepResult.pending, ⟨false, false, false⟩) ∧
      tryJoinOutcome (serverEventualResult (some o)) none = JoinRes.pending ∧
      (tryJoinOutcome (serverEventualResult (some o)) c = JoinRes.ok o ↔
        c = some (Except.ok ())) := by
  intro m o c
  refine ⟨rfl, rfl, ?_⟩
  cases c with
  | none => simp [serverEventualResult, tryJoinOutcome]
  | some e =>
    cases e with
    | error u => simp [serverEventualResult, tryJoinOutcome]
    | ok u => simp [serverEventualResult, tryJoinOutcome]

/-- C3 counterexample: when the outcome is Completed and squash_merge_branch
fails, the run does not report success and does not signal the stop
notification - the error propagates through the question-mark operator. -/
theorem run_counterexample_merge_error :
    ¬ ((runTail (JoinRes.ok TaskOutcome.Completed)
          (Except.error GitError.mergeConflict)).1 = RunStepResult.success ∧
       (runTail (JoinRes.ok TaskOutcome.Completed)
          (Except.error GitError.mergeConflict)).2.stopNotified = true) := by
  decide

/-- C3 (amended): when the TaskOutcome is Completed and squash_merge_branch
fails with a GitError, the run function terminates with that error as its
result (a nonzero outcome, not success), having invoked the merge but
without signalling the stop notification of the inquiry relay and without
awaiting the relay loop. -/
theorem run_merge_error_propagates :
    ∀ (e : GitError),
      runTail (JoinRes.ok TaskOutcome.Completed) (Except.error e) =
        (RunStepResult.errored, ⟨true, false, false⟩) := by
  intro e
  rfl

theorem splitOnceAux_append (a b : List Char) (h : '/' ∉ a) :
    splitOnceAux (a ++ '/' :: b) = some (a, b) := by
  induction a with
  | nil => simp [splitOnceAux]
  | cons c rest ih =>
    have hc : ¬ (c = '/') := by
      intro hEq
      exact h (hEq ▸ List.mem_cons_self c rest)
    have hr : '/' ∉ rest := fun hm => h (List.mem_cons_of_mem c hm)
    simp [splitOnceAux, hc, ih hr]

theorem data_append_slash (p m : String) :
    (p ++ "/" ++ m).data = p.data ++ '/' :: m.data := by
  cases p with
  | mk pd =>
    cases m with
    | mk md =>
      show (pd ++ ['/']) ++ md = pd ++ '/' :: md
      simp

theorem split_once_append (p m : String) (h : '/' ∉ p.data) :
    split_once (p ++ "/" ++ m) = some (p, m) := by
  unfold split_once
  rw [data_append_slash, splitOnceAux_append p.data m.data h]

theorem details_for_model_known (t : LLMRouterTable) (p m : String)
    (d : LLMProviderDetails) (hp : '/' ∉ p.data)
    (hd : alookup p t.providers = some d) :
    t.details_for_model (p ++ "/" ++ m) = some (m, d) := by
  unfold LLMRouterTable.details_for_model
  rw [split_once_append p m hp]
  simp [hd]

theorem details_for_model_fallback (t : LLMRouterTable) (s : String)
    (dd : LLMProviderDetails) (hs : noProviderMatch t s = true)
    (hdd : alookup t.default_provider t.providers = some dd) :
    t.details_for_model s = some (s, dd) := by
  unfold LLMRouterTable.details_for_model
  cases hsp : split_once s with
  | none => simp [hdd]
  | some pm =>
    have hnone : alookup pm.1 t.providers = none := by
      unfold noProviderMatch at hs
      rw [hsp] at hs
      simpa [Option.isNone_iff_eq_none] using hs
    simp [hnone, hdd]

/-- C4 (amended): the routing table resolves identifiers as the claim says -
a known provider before the first slash selects that provider and only the
part after the slash is the forwarded model name, any other identifier
falls back to the default provider (provided the default tag has an entry)
with the identifier unchanged - but the proxy configuration of chat.rs
ignores the resolution: it forwards every request to the OpenRouter
endpoint. -/
theorem router_resolution_and_hardcoded_forward (t : LLMRouterTable)
    (p m s : String) (d dd : LLMProviderDetails) (ctx : MainContext)
    (req : CompletionRequest) (hp : '/' ∉ p.data)
    (hd : alookup p t.providers = some d) (hs : noProviderMatch t s = true)
    (hdd : alookup t.default_provider t.providers = some dd) :
    t.details_for_model (p ++ "/" ++ m) = some (m, d) ∧
    t.details_for_model s = some (s, dd) ∧
    forward_to_url ctx req = OPENROUTER_CHAT_COMPLETIONS_URL ∧
    api_key ctx req = ctx.openrouter_key :=
  ⟨details_for_model_known t p m d hp hd,
   details_for_model_fallback t s dd hs hdd, rfl, rfl⟩

theorem router_resolution_witness :
    tableBoth.details_for_model ("groq" ++ "/" ++ "llama-3") =
      some ("llama-3", groqDetails) ∧
    tableBoth.details_for_model "llama-3" = some ("llama-3", orDetails) ∧
    forward_to_url ⟨"or-key"⟩ ⟨"groq/llama-3"⟩ = OPENROUTER_CHAT_COMPLETIONS_URL ∧
    api_key ⟨"or-key"⟩ ⟨"groq/llama-3"⟩ =
      (MainContext.mk "or-key").openrouter_key :=
  router_resolution_and_hardcoded_forward tableBoth "groq" "llama-3" "llama-3"
    groqDetails orDetails ⟨"or-key"⟩ ⟨"groq/llama-3"⟩
    (by decide) (by decide) (by decide) (by decide)

/-- C4 counterexample: for the identifier groq/llama-3, whose provider Groq
is configured in the table built from cfgBoth, the table resolves to the
Groq endpoint, yet the forwarding layer of chat.rs sends the request to the
OpenRouter endpoint, which differs from the Groq endpoint - so the claim
that the request is forwarded to the resolved provider is false. -/
theorem router_forward_counterexample :
    Config.llm_router_table cfgBoth = some tableBoth ∧
    tableBoth.details_for_model ("groq" ++ "/" ++ "llama-3") =
      some ("llama-3", groqDetails) ∧
    forward_to_url ⟨"or-key"⟩ ⟨"groq/llama-3"⟩ = OPENROUTER_CHAT_COMPLETIONS_URL ∧
    OPENROUTER_CHAT_COMPLETIONS_URL ≠ groqDetails.api_chat_completions_endpoint := by
  refine ⟨by decide, ?_, rfl, by decide⟩
  exact details_for_model_known tableBoth "groq" "llama-3" groqDetails
    (by decide) (by decide)

/-- C10: whenever the identifier has no configured provider before its first
slash and the default provider tag is absent from the providers map,
details_for_model reaches the expect panic (modelled as none); and the
table builder really produces such tables, since it takes the default tag
from the configured provider even when no key - hence no map entry - exists
for it, as the concrete configuration cfgGroqDefaultNoKey shows. -/
theorem details_for_model_default_missing (t : LLMRouterTable) (s : String)
    (hs : noProviderMatch t s = true)
    (hdd : alookup t.default_provider t.providers = none) :
    t.details_for_model s = none ∧
    Config.llm_router_table cfgGroqDefaultNoKey = some tableGroqDefault ∧
    alookup tableGroqDefault.default_provider tableGroqDefault.providers = none := by
  refine ⟨?_, by decide, by decide⟩
  unfold LLMRouterTable.details_for_model
  cases hsp : split_once s with
  | none => simp [hdd]
  | some pm =>
    have hnone : alookup pm.1 t.providers = none := by
      unfold noProviderMatch at hs
      rw [hsp] at hs
      simpa [Option.isNone_iff_eq_none] using hs
    simp [hnone, hdd]

theorem details_for_model_default_missing_witness :
    tableGroqDefault.details_for_model "meta/llama" = none ∧
    Config.llm_router_table cfgGroqDefaultNoKey = some tableGroqDefault ∧
    alookup tableGroqDefault.default_provider tableGroqDefault.providers = none :=
  details_for_model_default_missing tableGroqDefault "meta/llama"
    (by decide) (by decide)

/-- C5: whenever some tracked file is new, modified, deleted, renamed or
type-changed in the working tree (the statuses are taken with untracked
files excluded), squash_merge_branch fails with the dirty-working-tree
error during the status check, before any branch switch, merge-base
computation, diff or application, and the repository state - working tree
included - is unchanged. -/
theorem squash_merge_dirty (st : RepoState) (base fork : String)
    (h : (statusEntries st false).any statusDirty = true) :
    squash_merge_branch st base fork =
      (Except.error GitError.dirtyWorkingTree, st, [GitOp.statusCheck]) := by
  simp [squash_merge_branch, h]

theorem squash_merge_dirty_witness :
    squash_merge_branch dirtyRepo "main" "fork1" =
      (Except.error GitError.dirtyWorkingTree, dirtyRepo, [GitOp.statusCheck]) :=
  squash_merge_dirty dirtyRepo "main" "fork1" (by decide)

/-- C6: on a clean tree squash_merge_branch performs exactly the claimed
steps in order - status check, a switch to base only when the checked-out
branch differs, the merge-base of base and fork, the diff from the
merge-base tree to the fork tree, and its application to the working
directory - leaving the index unchanged by the application (the changes are
unstaged) and, should the application fail, reporting a merge-conflict
error while keeping whatever prefix of the changes was already applied (no
rollback). -/
theorem squash_merge_clean_path (st : RepoState) (base fork : String)
    (bc fc mb : Nat) (baseTree mbTree forkTree : FileTree)
    (hclean : (statusEntries st false).any statusDirty = false)
    (hbase : alookup base st.branches = some bc)
    (hfork : alookup fork st.branches = some fc)
    (hbt : alookup bc st.trees = some baseTree)
    (hmb : alookup (bc, fc) st.mergeBases = some mb)
    (hmt : alookup mb st.trees = some mbTree)
    (hft : alookup fc st.trees = some forkTree) :
    squash_merge_branch st base fork =
      (let wd0 := if st.headBranch = base then st.workdir else baseTree
       let ap := applySeq (diffTrees mbTree forkTree) wd0
       ((if ap.2 then Except.ok () else Except.error GitError.mergeConflict),
        { st with headBranch := base, workdir := ap.1,
                  index := if st.headBranch = base then st.index else baseTree },
        GitOp.statusCheck ::
          ((if st.headBranch = base then [] else [GitOp.setHeadAndCheckout base]) ++
           [GitOp.computeMergeBase bc fc, GitOp.computeDiff, GitOp.applyWorkDir]))) := by
  obtain ⟨hb, br, tr, mbs, wd, idx, ts, ut⟩ := st
  by_cases hhb : hb = base
  · subst hhb
    simp_all [squash_merge_branch, switchIfNeeded]
  · simp_all [squash_merge_branch, switchIfNeeded]

theorem squash_merge_clean_path_witness :
    squash_merge_branch cleanRepo "main" "fork1" =
      (let wd0 := if cleanRepo.headBranch = "main" then cleanRepo.workdir
                  else [("a.txt", "old")]
       let ap := applySeq
         (diffTrees [("a.txt", "old")] [("a.txt", "new"), ("b.txt", "add")]) wd0
       ((if ap.2 then Except.ok () else Except.error GitError.mergeConflict),
        { cleanRepo with headBranch := "main", workdir := ap.1,
                         index := if cleanRepo.headBranch = "main" then cleanRepo.index
                                  else [("a.txt", "old")] },
        GitOp.statusCheck ::
          ((if cleanRepo.headBranch = "main" then []
            else [GitOp.setHeadAndCheckout "main"]) ++
           [GitOp.computeMergeBase 1 2, GitOp.computeDiff, GitOp.applyWorkDir]))) :=
  squash_merge_clean_path cleanRepo "main" "fork1" 1 2 0
    [("a.txt", "old")] [("a.txt", "old")] [("a.txt", "new"), ("b.txt", "add")]
    (by decide) (by decide) (by decide) (by decide) (by decide) (by decide)
    (by decide)

/-- C7: the inquiry round trip is identity preserving. Reading the pending
question of an empty slot gives the empty string; after posting a question
the slot reports exactly that question; answering then acknowledges,
delivers exactly the given answer into the channel the suspended poster
awaits, and leaves the pending slot empty. -/
theorem inquiry_round_trip (st : RelayState) (q a : String)
    (h : st.pending = none) :
    get_inquiry st = "" ∧
    get_inquiry (inquiry q st).2 = q ∧
    inquiry_response a (inquiry q st).2 =
      (RespResult.okAck,
        { pending := none, nextId := st.nextId + 1,
          delivered := ((inquiry q st).1, a) :: st.delivered,
          closed := st.closed }) := by
  refine ⟨by simp [get_inquiry, h], by simp [get_inquiry, inquiry], ?_⟩
  simp [inquiry, inquiry_response, h]

theorem inquiry_round_trip_witness :
    get_inquiry (RelayState.mk none 0 [] []) = "" ∧
    get_inquiry (inquiry "Q" (RelayState.mk none 0 [] [])).2 = "Q" ∧
    inquiry_response "A" (inquiry "Q" (RelayState.mk none 0 [] [])).2 =
      (RespResult.okAck,
        { pending := none, nextId := 0 + 1,
          delivered := [((inquiry "Q" (RelayState.mk none 0 [] [])).1, "A")],
          closed := [] }) :=
  inquiry_round_trip (RelayState.mk none 0 [] []) "Q" "A" rfl

theorem relayStep_orphaned (c : Nat) (op : RelayOp) (st : RelayState)
    (h : Orphaned c st) : Orphaned c (relayStep op st) := by
  obtain ⟨h1, h2, h3⟩ := h
  cases op with
  | getReq => exact ⟨h1, h2, h3⟩
  | post q =>
    refine ⟨?_, ?_, ?_⟩
    · intro x hx
      exact h1 x (by simpa [relayStep, inquiry] using hx)
    · intro i hi
      simp only [relayStep, inquiry, Option.some.injEq] at hi
      intro hsend
      rw [← hi] at hsend
      simp at hsend
      omega
    · simp only [relayStep, inquiry]
      omega
  | respond a =>
    cases hp : st.pending with
    | none =>
      have hstep : relayStep (RelayOp.respond a) st = st := by
        simp [relayStep, inquiry_response, hp]
      rw [hstep]
      exact ⟨h1, h2, h3⟩
    | some i =>
      refine ⟨?_, ?_, ?_⟩
      · intro x hx
        simp only [relayStep, inquiry_response, hp, List.mem_cons] at hx
        cases hx with
        | inl hEq =>
          have : c = i.sender := congrArg Prod.fst hEq
          exact absurd this.symm (h2 i hp)
        | inr hmem => exact h1 x hmem
      · intro j hj
        simp [relayStep, inquiry_response, hp] at hj
      · simpa [relayStep, inquiry_response, hp] using h3

theorem runRelay_orphaned (c : Nat) (ops : List RelayOp) (st : RelayState)
    (h : Orphaned c st) : Orphaned c (runRelay ops st) := by
  induction ops generalizing st with
  | nil => exact h
  | cons op rest ih => exact ih (relayStep op st) (relayStep_orphaned c op st h)

/-- C8: posting a second inquiry while one is pending silently replaces the
pending entry - the slot then holds exactly the new inquiry - and the first
caller is left permanently unanswered: its channel is closed unanswered by
the replacement, and no later sequence of relay operations can ever deliver
an answer into it. -/
theorem second_inquiry_replaces (st0 : RelayState) (q1 q2 : String)
    (ops : List RelayOp)
    (hD : ∀ d ∈ st0.delivered, d.1 < st0.nextId) :
    (inquiry q2 (inquiry q1 st0).2).2.pending =
      some ⟨(inquiry q2 (inquiry q1 st0).2).1, q2⟩ ∧
    (inquiry q1 st0).1 ∈ (inquiry q2 (inquiry q1 st0).2).2.closed ∧
    ∀ x, ((inquiry q1 st0).1, x) ∉
      (runRelay ops (inquiry q2 (inquiry q1 st0).2).2).delivered := by
  refine ⟨by simp [inquiry], by simp [inquiry], ?_⟩
  have horph : Orphaned (inquiry q1 st0).1 (inquiry q2 (inquiry q1 st0).2).2 := by
    refine ⟨?_, ?_, ?_⟩
    · intro x hx
      simp only [inquiry] at hx
      have := hD _ hx
      simp [inquiry] at this
    · intro i hi
      simp only [inquiry, Option.some.injEq] at hi
      intro hsend
      rw [← hi] at hsend
      simp [inquiry] at hsend
    · simp only [inquiry]
      omega
  exact fun x => (runRelay_orphaned _ ops _ horph).1 x

theorem second_inquiry_replaces_witness :
    (inquiry "second" (inquiry "first" (RelayState.mk none 0 [] [])).2).2.pending =
      some ⟨(inquiry "second" (inquiry "first" (RelayState.mk none 0 [] [])).2).1,
            "second"⟩ ∧
    (inquiry "first" (RelayState.mk none 0 [] [])).1 ∈
      (inquiry "second" (inquiry "first" (RelayState.mk none 0 [] [])).2).2.closed ∧
    ∀ x, ((inquiry "first" (RelayState.mk none 0 [] [])).1, x) ∉
      (runRelay [RelayOp.respond "A", RelayOp.post "q3", RelayOp.respond "B"]
        (inquiry "second" (inquiry "first" (RelayState.mk none 0 [] [])).2).2).delivered :=
  second_inquiry_replaces (RelayState.mk none 0 [] []) "first" "second"
    [RelayOp.respond "A", RelayOp.post "q3", RelayOp.respond "B"] (by decide)

/-- C9: a call to inquiry_response while no inquiry is pending returns the
BadRequest client error (the handler returns normally, it does not crash)
and leaves the state - in particular the empty pending slot - unchanged. -/
theorem inquiry_response_no_pending (st : RelayState) (a : String)
    (h : st.pending = none) :
    inquiry_response a st = (RespResult.badRequest, st) := by
  simp [inquiry_response, h]

theorem inquiry_response_no_pending_witness :
    inquiry_response "stray" (RelayState.mk none 5 [(0, "done")] [1]) =
      (RespResult.badRequest, RelayState.mk none 5 [(0, "done")] [1]) :=
  inquiry_response_no_pending (RelayState.mk none 5 [(0, "done")] [1]) "stray" rfl
